import Mathlib

/-!
# Linux PAL extensions of the update client

A shallow embedding of `arm_uc_pal_linux_extensions.c`
(`update-client-hub/modules/pal-filesystem/source`).

The C file keeps two process-wide variables (`arm_ucex_linux_callback`,
`arm_ucex_activate_image_id`) and talks to a number of collaborators that live
in other modules: the PAL file system, the metadata-header codecs, the path
resolver, the C library and the PAL thread primitive.  The two variables are
the record `Globals`; every collaborator is a field of the record `Externals`,
so that every theorem holds for whatever these collaborators answer.  Each
embedded function returns, next to its C return value, the sequence of calls it
made, in program order (`Action`); the calls of the registered callback are
part of that sequence; what the callback does when called is outside the C
file and not modelled.  Trace output (`tr_err`, `tr_debug`) is left out.
-/

namespace ArmUcPalLinuxExtensions

/-! ## Types declared in headers outside the sources -/

/-- Modelled from the spec: the `code` member of `arm_uc_error_t`, declared in
a header outside the sources (the spec's `Success`, `InvalidParameter` and
further failure statuses).  Only `ERR_NONE` and `ERR_INVALID_PARAMETER` are
named by the C file; every further code of the enumeration is `other n`. -/
inductive arm_uc_error_code where
  | ERR_NONE
  | ERR_INVALID_PARAMETER
  | other (code : Nat)
  deriving DecidableEq, Repr

/-- Modelled from the spec: the PAL status `palStatus_t`, declared in a header
outside the sources.  Only `PAL_SUCCESS` and `PAL_ERR_GENERIC_FAILURE` are
named by the C file; every further status is `other n`. -/
inductive palStatus_t where
  | PAL_SUCCESS
  | PAL_ERR_GENERIC_FAILURE
  | other (code : Int)
  deriving DecidableEq, Repr

/-- Modelled from the spec: the event codes the C file passes to the
registered callback, declared in a header outside the sources (the spec's
`ActiveDetailsReady`, `InstallerDetailsReady`, `ActivationDone`,
`ActivationFailed`). -/
inductive arm_uc_paal_event where
  | ARM_UC_PAAL_EVENT_GET_ACTIVE_FIRMWARE_DETAILS_DONE
  | ARM_UC_PAAL_EVENT_GET_INSTALLER_DETAILS_DONE
  | ARM_UC_PAAL_EVENT_ACTIVATE_DONE
  | ARM_UC_PAAL_EVENT_ACTIVATE_ERROR
  deriving DecidableEq, Repr

open arm_uc_error_code palStatus_t arm_uc_paal_event

/-- One call made by the embedded code, as it appears in the call sequence.
`callback f e` is the call `arm_ucex_linux_callback(e)` while the variable
holds the function `f`. -/
inductive Action where
  | pal_fsFopen
  | pal_fsFread
  | pal_fsFclose
  | arm_uc_parse_internal_header_v2
  | arm_uc_parse_external_header_v2
  | memset
  | callback (f : Nat) (event : arm_uc_paal_event)
  | arm_uc_pal_filesystem_get_path (location : Nat)
  | snprintf
  | system (cmd_buf : List Nat)
  | fflush
  | sleep
  | pal_osThreadCreateWithAlloc (argument : Nat)
  deriving DecidableEq, Repr

/-- The two file-scope variables of the C file.  A function pointer is a
number, `none` is `NULL`. -/
structure Globals where
  arm_ucex_linux_callback : Option Nat
  arm_ucex_activate_image_id : Nat
  deriving DecidableEq, Repr

/-- The state the C file starts in: `arm_ucex_linux_callback = NULL`, and the
image id zero as every object of static storage duration. -/
def initialGlobals : Globals :=
  { arm_ucex_linux_callback := none, arm_ucex_activate_image_id := 0 }

/-- Everything the C file uses and does not define.  Records are byte
sequences (`List Nat`).

* the six `ARM_UC_*_HEADER_*_V2` constants and the two `sizeof` values;
* `pal_fsFopen`: the status of opening `header.bin`;
* `pal_fsFread`: the status of the read, the content of `read_buffer` after
  it, and `bytes_read`;
* `arm_uc_parse_uint32 p`: the value read at the bytes `p` points to;
* the two codecs: given `read_buffer` and the record `details` points to, the
  returned code and the record after the call;
* `arm_uc_pal_filesystem_get_path id`: the returned code and `path_buf`;
* `snprintf path_buf`: the returned `int` and `cmd_buf` after the call;
* `system cmd_buf`: the returned `int`;
* `pal_osThreadCreateWithAlloc`: the returned status. -/
structure Externals where
  ARM_UC_INTERNAL_HEADER_MAGIC_V2 : Nat
  ARM_UC_INTERNAL_HEADER_VERSION_V2 : Nat
  ARM_UC_INTERNAL_HEADER_SIZE_V2 : Nat
  ARM_UC_EXTERNAL_HEADER_MAGIC_V2 : Nat
  ARM_UC_EXTERNAL_HEADER_VERSION_V2 : Nat
  ARM_UC_EXTERNAL_HEADER_SIZE_V2 : Nat
  sizeof_arm_uc_firmware_details_t : Nat
  sizeof_arm_uc_installer_details_t : Nat
  pal_fsFopen : palStatus_t
  pal_fsFread : palStatus_t × List Nat × Nat
  arm_uc_parse_uint32 : List Nat → Nat
  arm_uc_parse_internal_header_v2 : List Nat → List Nat → arm_uc_error_code × List Nat
  arm_uc_parse_external_header_v2 : List Nat → List Nat → arm_uc_error_code × List Nat
  arm_uc_pal_filesystem_get_path : Nat → arm_uc_error_code × List Nat
  snprintf : List Nat → Int × List Nat
  system : List Nat → Int
  pal_osThreadCreateWithAlloc : palStatus_t

/-- The callback calls of a call sequence, in order: who was called, with
which event. -/
def published : List Action → List (Nat × arm_uc_paal_event)
  | [] => []
  | Action.callback f e :: rest => (f, e) :: published rest
  | _ :: rest => published rest

/-- Whether a call sequence contains a call of one of the two codecs. -/
def callsCodec (log : List Action) : Bool :=
  log.contains Action.arm_uc_parse_internal_header_v2 ||
    log.contains Action.arm_uc_parse_external_header_v2

/-- The statement `if (arm_ucex_linux_callback) arm_ucex_linux_callback(e);`. -/
def publish (g : Globals) (event : arm_uc_paal_event) : List Action :=
  match g.arm_ucex_linux_callback with
  | some f => [Action.callback f event]
  | none => []

/-- Modelled from the spec: the C library macro `WEXITSTATUS`, which the
sources use and do not define: bits 8 to 15 of a wait status,
`(s >> 8) & 0xff`.  On a two's complement `int` the arithmetic shift by 8 is
the floor division by 256 and the mask `0xff` is the remainder modulo 256
(`WEXITSTATUS_eq_bits` below relates the two forms). -/
def WEXITSTATUS (status : Int) : Int :=
  (status / 256) % 256

/-! ## The functions of the C file -/

/-- `pal_ext_imageInitAPI`: the returned code and the variables afterwards. -/
def pal_ext_imageInitAPI (g : Globals) (callback : Option Nat) :
    arm_uc_error_code × Globals :=
  let result := ERR_NONE
  let g := { g with arm_ucex_linux_callback := callback }
  (result, g)

/-- The condition of the first `if` of the header dispatch: the (magic,
version, bytes-read) triple is the internal V2 triple. -/
def isInternalV2 (E : Externals) (read_buffer : List Nat) (bytes_read : Nat) : Bool :=
  let headerMagic := E.arm_uc_parse_uint32 (read_buffer.drop 0)
  let headerVersion := E.arm_uc_parse_uint32 (read_buffer.drop 4)
  headerMagic == E.ARM_UC_INTERNAL_HEADER_MAGIC_V2 &&
    headerVersion == E.ARM_UC_INTERNAL_HEADER_VERSION_V2 &&
    bytes_read == E.ARM_UC_INTERNAL_HEADER_SIZE_V2

/-- The condition of the `else if` of the header dispatch: the triple is the
external V2 triple. -/
def isExternalV2 (E : Externals) (read_buffer : List Nat) (bytes_read : Nat) : Bool :=
  let headerMagic := E.arm_uc_parse_uint32 (read_buffer.drop 0)
  let headerVersion := E.arm_uc_parse_uint32 (read_buffer.drop 4)
  headerMagic == E.ARM_UC_EXTERNAL_HEADER_MAGIC_V2 &&
    headerVersion == E.ARM_UC_EXTERNAL_HEADER_VERSION_V2 &&
    bytes_read == E.ARM_UC_EXTERNAL_HEADER_SIZE_V2

/-- The header dispatch of `pal_ext_imageGetActiveDetails` (the body of the
inner `if (PAL_SUCCESS == status)` after `pal_fsFread`): the code in `result`,
the record, and the codec call made. -/
def chooseVersion (E : Externals) (result : arm_uc_error_code)
    (read_buffer : List Nat) (bytes_read : Nat) (details : List Nat) :
    arm_uc_error_code × List Nat × List Action :=
  if isInternalV2 E read_buffer bytes_read then
    let r := E.arm_uc_parse_internal_header_v2 read_buffer details
    (r.1, r.2, [Action.arm_uc_parse_internal_header_v2])
  else if isExternalV2 E read_buffer bytes_read then
    let r := E.arm_uc_parse_external_header_v2 read_buffer details
    (r.1, r.2, [Action.arm_uc_parse_external_header_v2])
  else
    (result, details, [])

/-- The file access of `pal_ext_imageGetActiveDetails` (the statement
`if (PAL_SUCCESS == status) ... else ...` after `pal_fsFopen`): the final
`status`, `result`, the record, and the calls made. -/
def loadHeader (E : Externals) (result : arm_uc_error_code) (details : List Nat) :
    palStatus_t × arm_uc_error_code × List Nat × List Action :=
  let status := E.pal_fsFopen
  if status = PAL_SUCCESS then
    let status := E.pal_fsFread.1
    let read_buffer := E.pal_fsFread.2.1
    let bytes_read := E.pal_fsFread.2.2
    if status = PAL_SUCCESS then
      let r := chooseVersion E result read_buffer bytes_read details
      (status, r.1, r.2.1,
        [Action.pal_fsFopen, Action.pal_fsFread] ++ r.2.2 ++ [Action.pal_fsFclose])
    else
      (status, result, details,
        [Action.pal_fsFopen, Action.pal_fsFread, Action.pal_fsFclose])
  else
    (status, result, details, [Action.pal_fsFopen])

/-- `pal_ext_imageGetActiveDetails`.  `details` is `none` for a `NULL`
pointer, else the record pointed to; the function returns the code, the record
after the call, and the calls made. -/
def pal_ext_imageGetActiveDetails (E : Externals) (g : Globals)
    (details : Option (List Nat)) :
    arm_uc_error_code × Option (List Nat) × List Action :=
  let result := ERR_INVALID_PARAMETER
  match details with
  | some d =>
    let r := loadHeader E result d
    let status := r.1
    let result := r.2.1
    let z : List Nat × List Action :=
      if status ≠ PAL_SUCCESS ∨ result ≠ ERR_NONE then
        (List.replicate E.sizeof_arm_uc_firmware_details_t 0, [Action.memset])
      else
        (r.2.2.1, [])
    (result, some z.1, r.2.2.2 ++ z.2 ++ publish g ARM_UC_PAAL_EVENT_GET_ACTIVE_FIRMWARE_DETAILS_DONE)
  | none => (result, none, [])

/-- `pal_ext_installerGetDetails`, with the same conventions. -/
def pal_ext_installerGetDetails (E : Externals) (g : Globals)
    (details : Option (List Nat)) :
    arm_uc_error_code × Option (List Nat) × List Action :=
  let result := ERR_INVALID_PARAMETER
  match details with
  | some _ =>
    let d := List.replicate E.sizeof_arm_uc_installer_details_t 0
    let result := ERR_NONE
    (result, some d, [Action.memset] ++ publish g ARM_UC_PAAL_EVENT_GET_INSTALLER_DETAILS_DONE)
  | none => (result, none, [])

/-- The first half of `pal_ext_imageActivationWorker`: path resolution and
command formatting.  Returns `rc`, `cmd_buf` and the calls made; `cmd_buf` is
only read when `rc` is `PAL_SUCCESS`. -/
def buildCommand (E : Externals) (location : Nat) :
    palStatus_t × List Nat × List Action :=
  let r := E.arm_uc_pal_filesystem_get_path location
  let result := r.1
  let path_buf := r.2
  let rc := PAL_ERR_GENERIC_FAILURE
  if result = ERR_NONE then
    let err := (E.snprintf path_buf).1
    let cmd_buf := (E.snprintf path_buf).2
    if err > 0 then
      (PAL_SUCCESS, cmd_buf, [Action.arm_uc_pal_filesystem_get_path location, Action.snprintf])
    else
      (PAL_ERR_GENERIC_FAILURE, cmd_buf,
        [Action.arm_uc_pal_filesystem_get_path location, Action.snprintf])
  else
    (rc, [], [Action.arm_uc_pal_filesystem_get_path location])

/-- The second half of `pal_ext_imageActivationWorker`, the statement
`if (rc == PAL_SUCCESS) { ... system ... }`: `rc` afterwards and the calls
made. -/
def runCommand (E : Externals) (rc : palStatus_t) (cmd_buf : List Nat) :
    palStatus_t × List Action :=
  if rc = PAL_SUCCESS then
    let err := E.system cmd_buf
    let err := WEXITSTATUS err
    if err ≠ -1 then
      (PAL_SUCCESS, [Action.system cmd_buf])
    else
      (PAL_ERR_GENERIC_FAILURE, [Action.system cmd_buf])
  else
    (rc, [])

/-- `pal_ext_imageActivationWorker`; `location` is the image id its argument
points to.  Returns the calls made. -/
def pal_ext_imageActivationWorker (E : Externals) (g : Globals) (location : Nat) :
    List Action :=
  let b := buildCommand E location
  let c := runCommand E b.1 b.2.1
  let rc := c.1
  let event := if rc = PAL_SUCCESS then ARM_UC_PAAL_EVENT_ACTIVATE_DONE
    else ARM_UC_PAAL_EVENT_ACTIVATE_ERROR
  b.2.2 ++ c.2 ++ [Action.fflush, Action.sleep] ++ publish g event

/-- `pal_ext_imageActivate`: the returned code, the variables afterwards and
the calls made.  `palImageId_t` is `uint32_t`, so the `memcpy` stores
`location`. -/
def pal_ext_imageActivate (E : Externals) (g : Globals) (location : Nat) :
    arm_uc_error_code × Globals × List Action :=
  let g := { g with arm_ucex_activate_image_id := location }
  let rc := E.pal_osThreadCreateWithAlloc
  if rc ≠ PAL_SUCCESS then
    (ERR_INVALID_PARAMETER, g, [Action.pal_osThreadCreateWithAlloc g.arm_ucex_activate_image_id])
  else
    (ERR_NONE, g, [Action.pal_osThreadCreateWithAlloc g.arm_ucex_activate_image_id])

/-! ## A concrete environment -/

/-- Big-endian reading of four bytes, as a value for `arm_uc_parse_uint32`. -/
def parseBigEndian32 (p : List Nat) : Nat :=
  ((p.getD 0 0 * 256 + p.getD 1 0) * 256 + p.getD 2 0) * 256 + p.getD 3 0

/-- A header of 112 bytes: magic `0x5a51b3d4`, version 2, payload zero. -/
def sampleHeader : List Nat :=
  [0x5a, 0x51, 0xb3, 0xd4, 0, 0, 0, 2] ++ List.replicate 104 0

/-- An environment in which `header.bin` holds `sampleHeader`, both codecs
accept it and copy its first four bytes, the path resolves, the command is
formatted, and the script exits with status 1 (wait status `0x100`). -/
def sampleExternals : Externals :=
  { ARM_UC_INTERNAL_HEADER_MAGIC_V2 := 0x5a51b3d4
    ARM_UC_INTERNAL_HEADER_VERSION_V2 := 2
    ARM_UC_INTERNAL_HEADER_SIZE_V2 := 112
    ARM_UC_EXTERNAL_HEADER_MAGIC_V2 := 0x5a51b3d4
    ARM_UC_EXTERNAL_HEADER_VERSION_V2 := 2
    ARM_UC_EXTERNAL_HEADER_SIZE_V2 := 296
    sizeof_arm_uc_firmware_details_t := 4
    sizeof_arm_uc_installer_details_t := 4
    pal_fsFopen := PAL_SUCCESS
    pal_fsFread := (PAL_SUCCESS, sampleHeader, 112)
    arm_uc_parse_uint32 := parseBigEndian32
    arm_uc_parse_internal_header_v2 := fun buf _ => (ERR_NONE, buf.take 4)
    arm_uc_parse_external_header_v2 := fun buf _ => (ERR_NONE, buf.take 4)
    arm_uc_pal_filesystem_get_path := fun _ => (ERR_NONE, [47, 102])
    snprintf := fun path => (18 + path.length, [46, 47, 97, 32] ++ path)
    system := fun _ => 0x100
    pal_osThreadCreateWithAlloc := PAL_SUCCESS }

/-- The same environment with `header.bin` absent: `pal_fsFopen` fails. -/
def noHeaderExternals : Externals :=
  { sampleExternals with pal_fsFopen := palStatus_t.other (-1) }

/-- The same environment with codecs that reject the header (as for a wrong
checksum) after having written part of the record. -/
def rejectingExternals : Externals :=
  { sampleExternals with
    arm_uc_parse_internal_header_v2 := fun buf _ => (ERR_INVALID_PARAMETER, buf.take 4)
    arm_uc_parse_external_header_v2 := fun buf _ => (ERR_INVALID_PARAMETER, buf.take 4) }

/-- The same environment with an image id that does not resolve to a path. -/
def noPathExternals : Externals :=
  { sampleExternals with
    arm_uc_pal_filesystem_get_path := fun _ => (ERR_INVALID_PARAMETER, []) }

/-- Variables with the callback `7` registered. -/
def sampleGlobals : Globals :=
  { arm_ucex_linux_callback := some 7, arm_ucex_activate_image_id := 0 }

/-! ## Derived notions used in the statements -/

/-- The record `memset` leaves: `sizeof(arm_uc_firmware_details_t)` bytes, each
zero. -/
def zeroedFirmwareDetails (E : Externals) : List Nat :=
  List.replicate E.sizeof_arm_uc_firmware_details_t 0

/-- The sample environment with a `system()` that fails to launch the
subprocess and returns -1. -/
def noLaunchExternals : Externals :=
  { sampleExternals with system := fun _ => -1 }

/-- The variables the worker of a request sees: those `pal_ext_imageActivate`
leaves. -/
def globalsAfterActivate (E : Externals) (g : Globals) (location : Nat) : Globals :=
  (pal_ext_imageActivate E g location).2.1

/-- The variables after `pal_ext_imageInitAPI(callback)`. -/
def registered (g : Globals) (callback : Option Nat) : Globals :=
  (pal_ext_imageInitAPI g callback).2

/-- Every callback call made by one call of each operation of the C file
started with the variables `g`: get-active-details, installer-details, the
activation worker, and `pal_ext_imageActivate`. -/
def allPublished (E : Externals) (g : Globals) (details : Option (List Nat))
    (location : Nat) : List (Nat × arm_uc_paal_event) :=
  published (pal_ext_imageGetActiveDetails E g details).2.2 ++
    published (pal_ext_installerGetDetails E g details).2.2 ++
    published (pal_ext_imageActivationWorker E g location) ++
    published (pal_ext_imageActivate E g location).2.2

/-- A call sequence without its callback calls. -/
def withoutCallbacks (log : List Action) : List Action :=
  log.filter fun a =>
    match a with
    | Action.callback _ _ => false
    | _ => true

/-! ## Lemmas on call sequences -/

theorem published_append (a b : List Action) :
    published (a ++ b) = published a ++ published b := by
  induction a with
  | nil => rfl
  | cons x xs ih => cases x <;> simp [published, ih]

theorem published_publish (g : Globals) (e : arm_uc_paal_event) :
    published (publish g e) =
      match g.arm_ucex_linux_callback with
      | some f => [(f, e)]
      | none => [] := by
  unfold publish
  cases g.arm_ucex_linux_callback <;> rfl

theorem published_chooseVersion (E : Externals) (result : arm_uc_error_code)
    (buf : List Nat) (n : Nat) (d : List Nat) :
    published (chooseVersion E result buf n d).2.2 = [] := by
  unfold chooseVersion
  split
  · rfl
  · split <;> rfl

theorem published_loadHeader (E : Externals) (result : arm_uc_error_code) (d : List Nat) :
    published (loadHeader E result d).2.2.2 = [] := by
  by_cases ho : E.pal_fsFopen = PAL_SUCCESS
  · by_cases hr : E.pal_fsFread.1 = PAL_SUCCESS
    · simp [loadHeader, ho, hr, published_append, published_chooseVersion, published]
    · simp [loadHeader, ho, hr, published]
  · simp [loadHeader, ho, published]

theorem published_buildCommand (E : Externals) (location : Nat) :
    published (buildCommand E location).2.2 = [] := by
  by_cases hp : (E.arm_uc_pal_filesystem_get_path location).1 = ERR_NONE
  · by_cases hf : (E.snprintf (E.arm_uc_pal_filesystem_get_path location).2).1 > 0
    · simp [buildCommand, hp, hf, published]
    · simp [buildCommand, hp, hf, published]
  · simp [buildCommand, hp, published]

theorem published_runCommand (E : Externals) (rc : palStatus_t) (cmd_buf : List Nat) :
    published (runCommand E rc cmd_buf).2 = [] := by
  by_cases hs : rc = PAL_SUCCESS
  · by_cases he : WEXITSTATUS (E.system cmd_buf) = -1
    · simp [runCommand, hs, he, published]
    · simp [runCommand, hs, he, published]
  · simp [runCommand, hs, published]

/-! ## The wait-status macro -/

theorem ldiff_255 (n : Nat) : Nat.ldiff 255 n = 255 - n % 256 := by
  apply Nat.eq_of_testBit_eq
  intro i
  have h1 : (255 : Nat) = 2 ^ 8 - 1 := by norm_num
  have h2 : 255 - n % 256 = 2 ^ 8 - (n % 2 ^ 8 + 1) := by omega
  rw [Nat.testBit_ldiff, h2, Nat.testBit_two_pow_sub_succ (Nat.mod_lt _ (by norm_num)), h1,
    Nat.testBit_two_pow_sub_one, Nat.testBit_mod_two_pow]
  cases decide (i < 8) <;> simp

theorem land_255 (x : Int) : Int.land x 255 = x % 256 := by
  cases x with
  | ofNat n =>
    show ((n &&& 255 : Nat) : Int) = (n : Int) % 256
    have h := Nat.and_pow_two_sub_one_eq_mod n 8
    norm_num at h
    rw [h]; norm_cast
  | negSucc n =>
    show ((Nat.ldiff 255 n : Nat) : Int) = Int.negSucc n % 256
    rw [ldiff_255]
    have h : Int.negSucc n = -((n : Int) + 1) := rfl
    rw [h]
    omega

/-- The arithmetic form of `WEXITSTATUS` is the bit-level `(s >> 8) & 0xff`. -/
theorem WEXITSTATUS_eq_bits (s : Int) :
    WEXITSTATUS s = Int.land (Int.shiftRight s 8) 0xff := by
  show _ = Int.land (Int.shiftRight s 8) 255
  rw [land_255]
  have h : Int.shiftRight s 8 = s >>> (8 : Nat) := rfl
  rw [h, Int.shiftRight_eq_div_pow]
  rfl

theorem WEXITSTATUS_range (s : Int) : 0 ≤ WEXITSTATUS s ∧ WEXITSTATUS s ≤ 255 := by
  unfold WEXITSTATUS
  omega

theorem runCommand_success (E : Externals) (cmd_buf : List Nat) :
    runCommand E PAL_SUCCESS cmd_buf = (PAL_SUCCESS, [Action.system cmd_buf]) := by
  have h := WEXITSTATUS_range (E.system cmd_buf)
  have h1 : WEXITSTATUS (E.system cmd_buf) ≠ -1 := by omega
  simp [runCommand, h1]

theorem runCommand_failure (E : Externals) (rc : palStatus_t) (cmd_buf : List Nat)
    (h : rc ≠ PAL_SUCCESS) : runCommand E rc cmd_buf = (rc, []) := by
  simp [runCommand, h]

/-! ## `pal_ext_imageGetActiveDetails` -/

/-- C1.  For a call of `pal_ext_imageGetActiveDetails` with a non-null output
record: if the header file fails to open, or the read fails, or the (magic,
version, bytes-read) triple is neither the internal nor the external V2 triple,
or the codec selected by the triple returns a code other than `ERR_NONE`, then
the returned code is not `ERR_NONE` and the output record is
`sizeof(arm_uc_firmware_details_t)` zero bytes; and whenever the triple matches
neither V2 triple, no codec is called. -/
theorem getActiveDetails_failure_zeroes (E : Externals) (g : Globals) (d : List Nat)
    (h : E.pal_fsFopen ≠ PAL_SUCCESS ∨ E.pal_fsFread.1 ≠ PAL_SUCCESS ∨
      (isInternalV2 E E.pal_fsFread.2.1 E.pal_fsFread.2.2 = false ∧
        isExternalV2 E E.pal_fsFread.2.1 E.pal_fsFread.2.2 = false) ∨
      (isInternalV2 E E.pal_fsFread.2.1 E.pal_fsFread.2.2 = true ∧
        (E.arm_uc_parse_internal_header_v2 E.pal_fsFread.2.1 d).1 ≠ ERR_NONE) ∨
      (isInternalV2 E E.pal_fsFread.2.1 E.pal_fsFread.2.2 = false ∧
        isExternalV2 E E.pal_fsFread.2.1 E.pal_fsFread.2.2 = true ∧
        (E.arm_uc_parse_external_header_v2 E.pal_fsFread.2.1 d).1 ≠ ERR_NONE)) :
    (pal_ext_imageGetActiveDetails E g (some d)).1 ≠ ERR_NONE ∧
    (pal_ext_imageGetActiveDetails E g (some d)).2.1 = some (zeroedFirmwareDetails E) ∧
    (∀ b ∈ zeroedFirmwareDetails E, b = 0) ∧
    (isInternalV2 E E.pal_fsFread.2.1 E.pal_fsFread.2.2 = false →
      isExternalV2 E E.pal_fsFread.2.1 E.pal_fsFread.2.2 = false →
      callsCodec (pal_ext_imageGetActiveDetails E g (some d)).2.2 = false) := by
  have hz : ∀ b ∈ zeroedFirmwareDetails E, b = 0 := by
    intro b hb
    exact List.eq_of_mem_replicate hb
  have hp : ∀ e, callsCodec (publish g e) = false := by
    intro e
    unfold publish
    cases g.arm_ucex_linux_callback <;> rfl
  refine ⟨?_, ?_, hz, ?_⟩
  · by_cases ho : E.pal_fsFopen = PAL_SUCCESS
    · by_cases hr : E.pal_fsFread.1 = PAL_SUCCESS
      · rcases h with h | h | ⟨h1, h2⟩ | ⟨h1, h2⟩ | ⟨h1, h2, h3⟩
        · exact absurd ho h
        · exact absurd hr h
        · simp [pal_ext_imageGetActiveDetails, loadHeader, chooseVersion, ho, hr, h1, h2]
        · simp [pal_ext_imageGetActiveDetails, loadHeader, chooseVersion, ho, hr, h1, h2]
        · simp [pal_ext_imageGetActiveDetails, loadHeader, chooseVersion, ho, hr, h1, h2, h3]
      · simp [pal_ext_imageGetActiveDetails, loadHeader, ho, hr]
    · simp [pal_ext_imageGetActiveDetails, loadHeader, ho]
  · by_cases ho : E.pal_fsFopen = PAL_SUCCESS
    · by_cases hr : E.pal_fsFread.1 = PAL_SUCCESS
      · rcases h with h | h | ⟨h1, h2⟩ | ⟨h1, h2⟩ | ⟨h1, h2, h3⟩
        · exact absurd ho h
        · exact absurd hr h
        · simp [pal_ext_imageGetActiveDetails, loadHeader, chooseVersion, ho, hr, h1, h2,
            zeroedFirmwareDetails]
        · simp [pal_ext_imageGetActiveDetails, loadHeader, chooseVersion, ho, hr, h1, h2,
            zeroedFirmwareDetails]
        · simp [pal_ext_imageGetActiveDetails, loadHeader, chooseVersion, ho, hr, h1, h2, h3,
            zeroedFirmwareDetails]
      · simp [pal_ext_imageGetActiveDetails, loadHeader, ho, hr, zeroedFirmwareDetails]
    · simp [pal_ext_imageGetActiveDetails, loadHeader, ho, zeroedFirmwareDetails]
  · intro h1 h2
    by_cases ho : E.pal_fsFopen = PAL_SUCCESS
    · by_cases hr : E.pal_fsFread.1 = PAL_SUCCESS
      · have := hp ARM_UC_PAAL_EVENT_GET_ACTIVE_FIRMWARE_DETAILS_DONE
        simp [callsCodec] at this
        simp [pal_ext_imageGetActiveDetails, loadHeader, chooseVersion, ho, hr, h1, h2,
          callsCodec, this]
      · have := hp ARM_UC_PAAL_EVENT_GET_ACTIVE_FIRMWARE_DETAILS_DONE
        simp [callsCodec] at this
        simp [pal_ext_imageGetActiveDetails, loadHeader, ho, hr, callsCodec, this]
    · have := hp ARM_UC_PAAL_EVENT_GET_ACTIVE_FIRMWARE_DETAILS_DONE
      simp [callsCodec] at this
      simp [pal_ext_imageGetActiveDetails, loadHeader, ho, callsCodec, this]

/-- C1 at a concrete input: `header.bin` is absent. -/
theorem getActiveDetails_failure_zeroes_witness :
    noHeaderExternals.pal_fsFopen ≠ PAL_SUCCESS ∧
    (pal_ext_imageGetActiveDetails noHeaderExternals sampleGlobals (some [1, 2, 3, 4])).1
      ≠ ERR_NONE ∧
    (pal_ext_imageGetActiveDetails noHeaderExternals sampleGlobals (some [1, 2, 3, 4])).2.1
      = some [0, 0, 0, 0] :=
  ⟨by decide,
    (getActiveDetails_failure_zeroes noHeaderExternals sampleGlobals [1, 2, 3, 4]
      (Or.inl (by decide))).1,
    (getActiveDetails_failure_zeroes noHeaderExternals sampleGlobals [1, 2, 3, 4]
      (Or.inl (by decide))).2.1⟩

/-- C2, as stated, fails: `header.bin` is read successfully and its triple is
the internal V2 triple, the internal codec rejects the buffer with
`ERR_INVALID_PARAMETER` after writing `[0x5a, 0x51, 0xb3, 0xd4]` to the record;
the function returns `ERR_INVALID_PARAMETER`, not `ERR_NONE`, and the output is
the zeroed record, not what the codec wrote. -/
theorem getActiveDetails_dispatch_counterexample :
    rejectingExternals.pal_fsFopen = PAL_SUCCESS ∧
    rejectingExternals.pal_fsFread.1 = PAL_SUCCESS ∧
    isInternalV2 rejectingExternals rejectingExternals.pal_fsFread.2.1
      rejectingExternals.pal_fsFread.2.2 = true ∧
    (rejectingExternals.arm_uc_parse_internal_header_v2
      rejectingExternals.pal_fsFread.2.1 [1, 2, 3, 4]).2 = [0x5a, 0x51, 0xb3, 0xd4] ∧
    (pal_ext_imageGetActiveDetails rejectingExternals sampleGlobals (some [1, 2, 3, 4])).1
      = ERR_INVALID_PARAMETER ∧
    (pal_ext_imageGetActiveDetails rejectingExternals sampleGlobals (some [1, 2, 3, 4])).2.1
      = some [0, 0, 0, 0] := by
  decide

/-- C2, amended.  For a buffer read successfully from the header file: if its
triple is the internal V2 triple, the function returns the code the internal
codec returns for that buffer, the external codec is not called, and when that
code is `ERR_NONE` the output record is the internal codec's decoding of the
buffer; if its triple is not the internal but the external V2 triple, the same
holds with the external codec, and the internal codec is not called. -/
theorem getActiveDetails_dispatch (E : Externals) (g : Globals) (d : List Nat)
    (hopen : E.pal_fsFopen = PAL_SUCCESS) (hread : E.pal_fsFread.1 = PAL_SUCCESS) :
    (isInternalV2 E E.pal_fsFread.2.1 E.pal_fsFread.2.2 = true →
      (pal_ext_imageGetActiveDetails E g (some d)).1
        = (E.arm_uc_parse_internal_header_v2 E.pal_fsFread.2.1 d).1 ∧
      ((pal_ext_imageGetActiveDetails E g (some d)).2.2.contains
        Action.arm_uc_parse_external_header_v2 = false) ∧
      ((E.arm_uc_parse_internal_header_v2 E.pal_fsFread.2.1 d).1 = ERR_NONE →
        (pal_ext_imageGetActiveDetails E g (some d)).2.1
          = some (E.arm_uc_parse_internal_header_v2 E.pal_fsFread.2.1 d).2)) ∧
    (isInternalV2 E E.pal_fsFread.2.1 E.pal_fsFread.2.2 = false →
      isExternalV2 E E.pal_fsFread.2.1 E.pal_fsFread.2.2 = true →
      (pal_ext_imageGetActiveDetails E g (some d)).1
        = (E.arm_uc_parse_external_header_v2 E.pal_fsFread.2.1 d).1 ∧
      ((pal_ext_imageGetActiveDetails E g (some d)).2.2.contains
        Action.arm_uc_parse_internal_header_v2 = false) ∧
      ((E.arm_uc_parse_external_header_v2 E.pal_fsFread.2.1 d).1 = ERR_NONE →
        (pal_ext_imageGetActiveDetails E g (some d)).2.1
          = some (E.arm_uc_parse_external_header_v2 E.pal_fsFread.2.1 d).2)) := by
  have hp : ∀ e a, (∀ f ev, a ≠ Action.callback f ev) → a ∉ publish g e := by
    intro e a ha
    unfold publish
    cases hc : g.arm_ucex_linux_callback with
    | none => simp
    | some f => simpa using ha f e
  have hpe := hp ARM_UC_PAAL_EVENT_GET_ACTIVE_FIRMWARE_DETAILS_DONE
    Action.arm_uc_parse_external_header_v2 (by intro f ev; exact Action.noConfusion)
  have hpi := hp ARM_UC_PAAL_EVENT_GET_ACTIVE_FIRMWARE_DETAILS_DONE
    Action.arm_uc_parse_internal_header_v2 (by intro f ev; exact Action.noConfusion)
  constructor
  · intro hi
    refine ⟨?_, ?_, ?_⟩
    · simp [pal_ext_imageGetActiveDetails, loadHeader, chooseVersion, hopen, hread, hi]
    · by_cases hc : (E.arm_uc_parse_internal_header_v2 E.pal_fsFread.2.1 d).1 = ERR_NONE
      · simp [pal_ext_imageGetActiveDetails, loadHeader, chooseVersion, hopen, hread, hi, hc, hpe]
      · simp [pal_ext_imageGetActiveDetails, loadHeader, chooseVersion, hopen, hread, hi, hc, hpe]
    · intro hc
      simp [pal_ext_imageGetActiveDetails, loadHeader, chooseVersion, hopen, hread, hi, hc]
  · intro hi he
    refine ⟨?_, ?_, ?_⟩
    · simp [pal_ext_imageGetActiveDetails, loadHeader, chooseVersion, hopen, hread, hi, he]
    · by_cases hc : (E.arm_uc_parse_external_header_v2 E.pal_fsFread.2.1 d).1 = ERR_NONE
      · simp [pal_ext_imageGetActiveDetails, loadHeader, chooseVersion, hopen, hread, hi, he, hc,
          hpi]
      · simp [pal_ext_imageGetActiveDetails, loadHeader, chooseVersion, hopen, hread, hi, he, hc,
          hpi]
    · intro hc
      simp [pal_ext_imageGetActiveDetails, loadHeader, chooseVersion, hopen, hread, hi, he, hc]

/-- C2, amended, at a concrete input: the sample header of 112 bytes is
decoded by the internal codec. -/
theorem getActiveDetails_dispatch_witness :
    sampleExternals.pal_fsFopen = PAL_SUCCESS ∧
    sampleExternals.pal_fsFread.1 = PAL_SUCCESS ∧
    isInternalV2 sampleExternals sampleExternals.pal_fsFread.2.1
      sampleExternals.pal_fsFread.2.2 = true ∧
    (pal_ext_imageGetActiveDetails sampleExternals sampleGlobals (some [1, 2, 3, 4])).1
      = ERR_NONE ∧
    (pal_ext_imageGetActiveDetails sampleExternals sampleGlobals (some [1, 2, 3, 4])).2.1
      = some [0x5a, 0x51, 0xb3, 0xd4] :=
  ⟨by decide, by decide, by decide,
    ((getActiveDetails_dispatch sampleExternals sampleGlobals [1, 2, 3, 4]
      (by decide) (by decide)).1 (by decide)).1,
    ((getActiveDetails_dispatch sampleExternals sampleGlobals [1, 2, 3, 4]
      (by decide) (by decide)).1 (by decide)).2.2 (by decide)⟩

/-- C3, as stated, fails: with the callback `7` registered, a call with a
`NULL` output pointer returns `ERR_INVALID_PARAMETER` and calls nothing, the
callback included. -/
theorem getActiveDetails_publishes_counterexample :
    sampleGlobals.arm_ucex_linux_callback = some 7 ∧
    pal_ext_imageGetActiveDetails sampleExternals sampleGlobals none
      = (ERR_INVALID_PARAMETER, none, []) ∧
    published (pal_ext_imageGetActiveDetails sampleExternals sampleGlobals none).2.2 = [] := by
  decide

/-- C3, amended.  With a callback `f` registered, every call of
`pal_ext_imageGetActiveDetails` with a non-null output record, whatever the
file system and the codecs answer, calls `f` exactly once, with
`ARM_UC_PAAL_EVENT_GET_ACTIVE_FIRMWARE_DETAILS_DONE`, and calls it last: every
other call of the function, the codec and the zeroing `memset` included, comes
before it. -/
theorem getActiveDetails_publishes_once (E : Externals) (g : Globals) (d : List Nat) (f : Nat)
    (hcb : g.arm_ucex_linux_callback = some f) :
    published (pal_ext_imageGetActiveDetails E g (some d)).2.2
      = [(f, ARM_UC_PAAL_EVENT_GET_ACTIVE_FIRMWARE_DETAILS_DONE)] ∧
    ∃ before, (pal_ext_imageGetActiveDetails E g (some d)).2.2
        = before ++ [Action.callback f ARM_UC_PAAL_EVENT_GET_ACTIVE_FIRMWARE_DETAILS_DONE] ∧
      published before = [] := by
  have hlog : ∃ before, (pal_ext_imageGetActiveDetails E g (some d)).2.2
        = before ++ [Action.callback f ARM_UC_PAAL_EVENT_GET_ACTIVE_FIRMWARE_DETAILS_DONE] ∧
      published before = [] := by
    by_cases hz : (loadHeader E ERR_INVALID_PARAMETER d).1 ≠ PAL_SUCCESS ∨
        (loadHeader E ERR_INVALID_PARAMETER d).2.1 ≠ ERR_NONE
    · refine ⟨(loadHeader E ERR_INVALID_PARAMETER d).2.2.2 ++ [Action.memset], ?_, ?_⟩
      · simp only [pal_ext_imageGetActiveDetails, publish, hcb, if_pos hz]
      · simp [published_append, published_loadHeader, published]
    · refine ⟨(loadHeader E ERR_INVALID_PARAMETER d).2.2.2, ?_, ?_⟩
      · simp only [pal_ext_imageGetActiveDetails, publish, hcb, if_neg hz, List.append_nil]
      · exact published_loadHeader E _ d
  refine ⟨?_, hlog⟩
  obtain ⟨before, h1, h2⟩ := hlog
  rw [h1, published_append, h2]
  rfl

/-- C3, amended, at a concrete input: the sample header, callback `7`. -/
theorem getActiveDetails_publishes_once_witness :
    sampleGlobals.arm_ucex_linux_callback = some 7 ∧
    published (pal_ext_imageGetActiveDetails sampleExternals sampleGlobals (some [1, 2, 3, 4])).2.2
      = [(7, ARM_UC_PAAL_EVENT_GET_ACTIVE_FIRMWARE_DETAILS_DONE)] :=
  ⟨by decide,
    (getActiveDetails_publishes_once sampleExternals sampleGlobals [1, 2, 3, 4] 7 (by decide)).1⟩

/-! ## The activation worker -/

/-- The worker publishes the event its final `rc` selects, once, when a
callback is registered. -/
theorem published_worker (E : Externals) (g : Globals) (location f : Nat)
    (hcb : g.arm_ucex_linux_callback = some f) :
    published (pal_ext_imageActivationWorker E g location) =
      [(f, if (runCommand E (buildCommand E location).1 (buildCommand E location).2.1).1
          = PAL_SUCCESS then ARM_UC_PAAL_EVENT_ACTIVATE_DONE
        else ARM_UC_PAAL_EVENT_ACTIVATE_ERROR)] := by
  simp only [pal_ext_imageActivationWorker, published_append, published_buildCommand,
    published_runCommand, published_publish, hcb]
  rfl

theorem buildCommand_success (E : Externals) (location : Nat)
    (hpath : (E.arm_uc_pal_filesystem_get_path location).1 = ERR_NONE)
    (hfmt : (E.snprintf (E.arm_uc_pal_filesystem_get_path location).2).1 > 0) :
    (buildCommand E location).1 = PAL_SUCCESS := by
  simp [buildCommand, hpath, hfmt]

theorem buildCommand_failure (E : Externals) (location : Nat)
    (hfail : (E.arm_uc_pal_filesystem_get_path location).1 ≠ ERR_NONE ∨
      (E.snprintf (E.arm_uc_pal_filesystem_get_path location).2).1 ≤ 0) :
    (buildCommand E location).1 = PAL_ERR_GENERIC_FAILURE := by
  by_cases hp : (E.arm_uc_pal_filesystem_get_path location).1 = ERR_NONE
  · have hf : ¬ (E.snprintf (E.arm_uc_pal_filesystem_get_path location).2).1 > 0 := by
      rcases hfail with h | h
      · exact absurd hp h
      · omega
    simp [buildCommand, hp, hf]
  · simp [buildCommand, hp]

/-- C4, as stated, fails: the command is constructed, the script exits with
status 1 (`system` returns the wait status `0x100`, whose `WEXITSTATUS` is 1),
and the worker publishes `ARM_UC_PAAL_EVENT_ACTIVATE_DONE`. -/
theorem activationWorker_exit_status_counterexample :
    (buildCommand sampleExternals 3).1 = PAL_SUCCESS ∧
    WEXITSTATUS (sampleExternals.system (buildCommand sampleExternals 3).2.1) = 1 ∧
    published (pal_ext_imageActivationWorker sampleExternals sampleGlobals 3)
      = [(7, ARM_UC_PAAL_EVENT_ACTIVATE_DONE)] := by
  decide

/-- C4, amended.  In the activation worker, once the command has been
constructed, and `system()` returns the wait status of a subprocess (any value
other than -1), the published event is `ARM_UC_PAAL_EVENT_ACTIVATE_DONE`
whatever the exit status is, zero or nonzero. -/
theorem activationWorker_exit_status (E : Externals) (g : Globals) (location f : Nat)
    (hcb : g.arm_ucex_linux_callback = some f)
    (hcmd : (buildCommand E location).1 = PAL_SUCCESS)
    (_hlaunched : E.system (buildCommand E location).2.1 ≠ -1) :
    published (pal_ext_imageActivationWorker E g location)
      = [(f, ARM_UC_PAAL_EVENT_ACTIVATE_DONE)] := by
  rw [published_worker E g location f hcb, hcmd, runCommand_success]
  rfl

/-- C4, amended, at a concrete input: the script exits with status 1. -/
theorem activationWorker_exit_status_witness :
    sampleGlobals.arm_ucex_linux_callback = some 7 ∧
    (buildCommand sampleExternals 3).1 = PAL_SUCCESS ∧
    sampleExternals.system (buildCommand sampleExternals 3).2.1 ≠ -1 ∧
    published (pal_ext_imageActivationWorker sampleExternals sampleGlobals 3)
      = [(7, ARM_UC_PAAL_EVENT_ACTIVATE_DONE)] :=
  ⟨by decide, by decide, by decide,
    activationWorker_exit_status sampleExternals sampleGlobals 3 7
      (by decide) (by decide) (by decide)⟩

/-- C6.  With a callback `f` registered, every run of the activation worker,
whatever path resolution, formatting and `system()` return, calls `f` exactly
once, and the event passed is `ARM_UC_PAAL_EVENT_ACTIVATE_DONE` or
`ARM_UC_PAAL_EVENT_ACTIVATE_ERROR`. -/
theorem activationWorker_publishes_once (E : Externals) (g : Globals) (location f : Nat)
    (hcb : g.arm_ucex_linux_callback = some f) :
    published (pal_ext_imageActivationWorker E g location)
        = [(f, ARM_UC_PAAL_EVENT_ACTIVATE_DONE)] ∨
      published (pal_ext_imageActivationWorker E g location)
        = [(f, ARM_UC_PAAL_EVENT_ACTIVATE_ERROR)] := by
  rw [published_worker E g location f hcb]
  by_cases h : (runCommand E (buildCommand E location).1 (buildCommand E location).2.1).1
      = PAL_SUCCESS
  · left; rw [if_pos h]
  · right; rw [if_neg h]

/-- C6 at a concrete input: an image id that does not resolve to a path. -/
theorem activationWorker_publishes_once_witness :
    sampleGlobals.arm_ucex_linux_callback = some 7 ∧
    (published (pal_ext_imageActivationWorker noPathExternals sampleGlobals 3)
        = [(7, ARM_UC_PAAL_EVENT_ACTIVATE_DONE)] ∨
      published (pal_ext_imageActivationWorker noPathExternals sampleGlobals 3)
        = [(7, ARM_UC_PAAL_EVENT_ACTIVATE_ERROR)]) :=
  ⟨by decide, activationWorker_publishes_once noPathExternals sampleGlobals 3 7 (by decide)⟩

/-- C10.  For every `int` value `s`, `WEXITSTATUS(s) = (s >> 8) & 0xff` lies
in `0..255` and so is never -1, and `WEXITSTATUS(-1) = 255`; consequently,
whenever path resolution succeeds and the command is formatted, the test
`err != -1` of the worker passes (`rc` stays `PAL_SUCCESS`) and the event
published is `ARM_UC_PAAL_EVENT_ACTIVATE_DONE`, whatever `system()`
returned. -/
theorem activationWorker_always_done (E : Externals) (g : Globals) (location f : Nat)
    (s : Int) (hcb : g.arm_ucex_linux_callback = some f)
    (hpath : (E.arm_uc_pal_filesystem_get_path location).1 = ERR_NONE)
    (hfmt : (E.snprintf (E.arm_uc_pal_filesystem_get_path location).2).1 > 0) :
    WEXITSTATUS s = Int.land (Int.shiftRight s 8) 0xff ∧
    0 ≤ WEXITSTATUS s ∧ WEXITSTATUS s ≤ 255 ∧ WEXITSTATUS s ≠ -1 ∧
    WEXITSTATUS (-1) = 255 ∧
    (runCommand E (buildCommand E location).1 (buildCommand E location).2.1).1 = PAL_SUCCESS ∧
    published (pal_ext_imageActivationWorker E g location)
      = [(f, ARM_UC_PAAL_EVENT_ACTIVATE_DONE)] := by
  have hr := WEXITSTATUS_range s
  have hb := buildCommand_success E location hpath hfmt
  refine ⟨WEXITSTATUS_eq_bits s, hr.1, hr.2, by omega, by decide, ?_, ?_⟩
  · rw [hb, runCommand_success]
  · rw [published_worker E g location f hcb, hb, runCommand_success]
    rfl

/-- C10 at a concrete input: `system()` returns -1. -/
theorem activationWorker_always_done_witness :
    sampleGlobals.arm_ucex_linux_callback = some 7 ∧
    (noLaunchExternals.arm_uc_pal_filesystem_get_path 3).1 = ERR_NONE ∧
    (noLaunchExternals.snprintf (noLaunchExternals.arm_uc_pal_filesystem_get_path 3).2).1 > 0 ∧
    noLaunchExternals.system (buildCommand noLaunchExternals 3).2.1 = -1 ∧
    published (pal_ext_imageActivationWorker noLaunchExternals sampleGlobals 3)
      = [(7, ARM_UC_PAAL_EVENT_ACTIVATE_DONE)] :=
  ⟨by decide, by decide, by decide, by decide,
    (activationWorker_always_done noLaunchExternals sampleGlobals 3 7 (-1)
      (by decide) (by decide) (by decide)).2.2.2.2.2.2⟩

/-! ## `pal_ext_imageActivate` -/

theorem imageActivate_code (E : Externals) (g : Globals) (location : Nat) :
    (pal_ext_imageActivate E g location).1 =
      if E.pal_osThreadCreateWithAlloc = PAL_SUCCESS then ERR_NONE
      else ERR_INVALID_PARAMETER := by
  by_cases h : E.pal_osThreadCreateWithAlloc = PAL_SUCCESS
  · simp [pal_ext_imageActivate, h]
  · simp [pal_ext_imageActivate, h]

theorem imageActivate_globals (E : Externals) (g : Globals) (location : Nat) :
    (pal_ext_imageActivate E g location).2.1 =
      { g with arm_ucex_activate_image_id := location } := by
  by_cases h : E.pal_osThreadCreateWithAlloc = PAL_SUCCESS
  · simp [pal_ext_imageActivate, h]
  · simp [pal_ext_imageActivate, h]

theorem imageActivate_log (E : Externals) (g : Globals) (location : Nat) :
    (pal_ext_imageActivate E g location).2.2 =
      [Action.pal_osThreadCreateWithAlloc location] := by
  by_cases h : E.pal_osThreadCreateWithAlloc = PAL_SUCCESS
  · simp [pal_ext_imageActivate, h]
  · simp [pal_ext_imageActivate, h]

/-- C5, as stated, fails: the image id 3 does not resolve to a path, the
thread is created; `pal_ext_imageActivate` returns `ERR_NONE`, and the worker
it handed the id to publishes `ARM_UC_PAAL_EVENT_ACTIVATE_ERROR`. -/
theorem imageActivate_path_failure_counterexample :
    (noPathExternals.arm_uc_pal_filesystem_get_path 3).1 = ERR_INVALID_PARAMETER ∧
    (pal_ext_imageActivate noPathExternals sampleGlobals 3).1 = ERR_NONE ∧
    (pal_ext_imageActivate noPathExternals sampleGlobals 3).2.2
      = [Action.pal_osThreadCreateWithAlloc 3] ∧
    noPathExternals.pal_osThreadCreateWithAlloc = PAL_SUCCESS ∧
    published (pal_ext_imageActivationWorker noPathExternals
        (globalsAfterActivate noPathExternals sampleGlobals 3)
        (globalsAfterActivate noPathExternals sampleGlobals 3).arm_ucex_activate_image_id)
      = [(7, ARM_UC_PAAL_EVENT_ACTIVATE_ERROR)] := by
  decide

/-- C5, amended.  For every location id whose path resolution or command
formatting fails, the failure is met in the worker, not in
`pal_ext_imageActivate`: `pal_ext_imageActivate` returns `ERR_NONE` exactly
when the worker thread is created and calls no callback itself, and the worker
run on the stored id calls no `system()` and publishes exactly one event,
`ARM_UC_PAAL_EVENT_ACTIVATE_ERROR`. -/
theorem imageActivate_path_failure (E : Externals) (g : Globals) (location f : Nat)
    (hcb : g.arm_ucex_linux_callback = some f)
    (hfail : (E.arm_uc_pal_filesystem_get_path location).1 ≠ ERR_NONE ∨
      (E.snprintf (E.arm_uc_pal_filesystem_get_path location).2).1 ≤ 0) :
    ((pal_ext_imageActivate E g location).1 = ERR_NONE ↔
      E.pal_osThreadCreateWithAlloc = PAL_SUCCESS) ∧
    published (pal_ext_imageActivate E g location).2.2 = [] ∧
    (globalsAfterActivate E g location).arm_ucex_activate_image_id = location ∧
    (∀ cmd_buf, Action.system cmd_buf ∉
      pal_ext_imageActivationWorker E (globalsAfterActivate E g location) location) ∧
    published (pal_ext_imageActivationWorker E (globalsAfterActivate E g location) location)
      = [(f, ARM_UC_PAAL_EVENT_ACTIVATE_ERROR)] := by
  have hg : (globalsAfterActivate E g location).arm_ucex_linux_callback = some f := by
    simp [globalsAfterActivate, imageActivate_globals, hcb]
  have hb := buildCommand_failure E location hfail
  have hne : PAL_ERR_GENERIC_FAILURE ≠ PAL_SUCCESS := by decide
  refine ⟨?_, ?_, ?_, ?_, ?_⟩
  · rw [imageActivate_code]
    by_cases h : E.pal_osThreadCreateWithAlloc = PAL_SUCCESS
    · simp [h]
    · simp [h]
  · rw [imageActivate_log]; rfl
  · simp [globalsAfterActivate, imageActivate_globals]
  · intro cmd_buf
    have hlog : (buildCommand E location).2.2 = [Action.arm_uc_pal_filesystem_get_path location] ∨
        (buildCommand E location).2.2 =
          [Action.arm_uc_pal_filesystem_get_path location, Action.snprintf] := by
      by_cases hp : (E.arm_uc_pal_filesystem_get_path location).1 = ERR_NONE
      · by_cases hf : (E.snprintf (E.arm_uc_pal_filesystem_get_path location).2).1 > 0
        · right; simp [buildCommand, hp, hf]
        · right; simp [buildCommand, hp, hf]
      · left; simp [buildCommand, hp]
    simp only [pal_ext_imageActivationWorker, hb, runCommand_failure E _ _ hne, publish, hg]
    rcases hlog with h | h <;> simp [h]
  · rw [published_worker E _ location f hg, hb, runCommand_failure E _ _ hne]
    rfl

/-- C5, amended, at a concrete input: image id 3, which does not resolve. -/
theorem imageActivate_path_failure_witness :
    sampleGlobals.arm_ucex_linux_callback = some 7 ∧
    (noPathExternals.arm_uc_pal_filesystem_get_path 3).1 ≠ ERR_NONE ∧
    published (pal_ext_imageActivationWorker noPathExternals
        (globalsAfterActivate noPathExternals sampleGlobals 3) 3)
      = [(7, ARM_UC_PAAL_EVENT_ACTIVATE_ERROR)] :=
  ⟨by decide, by decide,
    (imageActivate_path_failure noPathExternals sampleGlobals 3 7 (by decide)
      (Or.inl (by decide))).2.2.2.2⟩

/-- C7.  `pal_ext_imageActivate` returns `ERR_NONE` if and only if the worker
thread was created, and `ERR_INVALID_PARAMETER` when thread creation fails; on
every path the call itself calls no callback (its only call is
`pal_osThreadCreateWithAlloc`, handed the shared id); and in both cases the
requested location id is stored in `arm_ucex_activate_image_id`, whatever it
held before, the registered callback being left as it was. -/
theorem imageActivate_acknowledgement (E : Externals) (g : Globals) (location : Nat) :
    ((pal_ext_imageActivate E g location).1 = ERR_NONE ↔
      E.pal_osThreadCreateWithAlloc = PAL_SUCCESS) ∧
    (E.pal_osThreadCreateWithAlloc ≠ PAL_SUCCESS →
      (pal_ext_imageActivate E g location).1 = ERR_INVALID_PARAMETER) ∧
    published (pal_ext_imageActivate E g location).2.2 = [] ∧
    (pal_ext_imageActivate E g location).2.2 = [Action.pal_osThreadCreateWithAlloc location] ∧
    (pal_ext_imageActivate E g location).2.1.arm_ucex_activate_image_id = location ∧
    (pal_ext_imageActivate E g location).2.1.arm_ucex_linux_callback
      = g.arm_ucex_linux_callback := by
  refine ⟨?_, ?_, ?_, imageActivate_log E g location, ?_, ?_⟩
  · rw [imageActivate_code]
    by_cases h : E.pal_osThreadCreateWithAlloc = PAL_SUCCESS
    · simp [h]
    · simp [h]
  · intro h
    rw [imageActivate_code, if_neg h]
  · rw [imageActivate_log]; rfl
  · rw [imageActivate_globals]
  · rw [imageActivate_globals]

/-! ## `pal_ext_installerGetDetails` -/

/-- C8, as stated, fails: a call with a `NULL` output pointer returns
`ERR_INVALID_PARAMETER` and calls nothing, although the callback `7` is
registered. -/
theorem installerGetDetails_counterexample :
    sampleGlobals.arm_ucex_linux_callback = some 7 ∧
    pal_ext_installerGetDetails sampleExternals sampleGlobals none
      = (ERR_INVALID_PARAMETER, none, []) := by
  decide

/-- C8, amended.  Every call of `pal_ext_installerGetDetails` with a non-null
output record returns `ERR_NONE`, leaves the record as
`sizeof(arm_uc_installer_details_t)` zero bytes, and, with a callback `f`
registered, calls `f` exactly once, with
`ARM_UC_PAAL_EVENT_GET_INSTALLER_DETAILS_DONE`, after the zeroing. -/
theorem installerGetDetails_contract (E : Externals) (g : Globals) (d : List Nat) (f : Nat)
    (hcb : g.arm_ucex_linux_callback = some f) :
    (pal_ext_installerGetDetails E g (some d)).1 = ERR_NONE ∧
    (pal_ext_installerGetDetails E g (some d)).2.1
      = some (List.replicate E.sizeof_arm_uc_installer_details_t 0) ∧
    (pal_ext_installerGetDetails E g (some d)).2.2
      = [Action.memset, Action.callback f ARM_UC_PAAL_EVENT_GET_INSTALLER_DETAILS_DONE] ∧
    published (pal_ext_installerGetDetails E g (some d)).2.2
      = [(f, ARM_UC_PAAL_EVENT_GET_INSTALLER_DETAILS_DONE)] := by
  simp [pal_ext_installerGetDetails, publish, hcb, published]

/-- C8, amended, at a concrete input. -/
theorem installerGetDetails_contract_witness :
    sampleGlobals.arm_ucex_linux_callback = some 7 ∧
    pal_ext_installerGetDetails sampleExternals sampleGlobals (some [1, 2, 3, 4])
      = (ERR_NONE, some [0, 0, 0, 0],
        [Action.memset, Action.callback 7 ARM_UC_PAAL_EVENT_GET_INSTALLER_DETAILS_DONE]) :=
  ⟨by decide,
    Prod.ext (installerGetDetails_contract sampleExternals sampleGlobals [1, 2, 3, 4] 7
        (by decide)).1
      (Prod.ext (installerGetDetails_contract sampleExternals sampleGlobals [1, 2, 3, 4] 7
          (by decide)).2.1
        (installerGetDetails_contract sampleExternals sampleGlobals [1, 2, 3, 4] 7
          (by decide)).2.2.1)⟩

/-! ## `pal_ext_imageInitAPI` and the sink -/

theorem mem_published_publish (g : Globals) (e : arm_uc_paal_event)
    (p : Nat × arm_uc_paal_event) (hp : p ∈ published (publish g e)) :
    g.arm_ucex_linux_callback = some p.1 := by
  unfold publish at hp
  cases hc : g.arm_ucex_linux_callback with
  | none => simp [hc, published] at hp
  | some f =>
    simp [hc, published] at hp
    simp [hp]

theorem mem_allPublished (E : Externals) (g : Globals) (details : Option (List Nat))
    (location : Nat) (p : Nat × arm_uc_paal_event) (hp : p ∈ allPublished E g details location) :
    g.arm_ucex_linux_callback = some p.1 := by
  simp only [allPublished, List.mem_append] at hp
  rcases hp with ((hp | hp) | hp) | hp
  · cases details with
    | none => simp [pal_ext_imageGetActiveDetails, published] at hp
    | some d =>
      simp only [pal_ext_imageGetActiveDetails, published_append, published_loadHeader,
        List.nil_append, List.mem_append] at hp
      rcases hp with hp | hp
      · split at hp <;> simp [published] at hp
      · exact mem_published_publish g _ p hp
  · cases details with
    | none => simp [pal_ext_installerGetDetails, published] at hp
    | some d =>
      simp only [pal_ext_installerGetDetails, published_append, List.mem_append] at hp
      rcases hp with hp | hp
      · simp [published] at hp
      · exact mem_published_publish g _ p hp
  · simp only [pal_ext_imageActivationWorker, published_append, published_buildCommand,
      published_runCommand, List.nil_append, List.mem_append] at hp
    rcases hp with hp | hp
    · simp [published] at hp
    · exact mem_published_publish g _ p hp
  · rw [imageActivate_log] at hp
    simp [published] at hp

theorem withoutCallbacks_append (a b : List Action) :
    withoutCallbacks (a ++ b) = withoutCallbacks a ++ withoutCallbacks b := by
  simp [withoutCallbacks]

theorem withoutCallbacks_publish (g : Globals) (e : arm_uc_paal_event) :
    withoutCallbacks (publish g e) = [] := by
  unfold publish
  cases g.arm_ucex_linux_callback <;> simp [withoutCallbacks]

theorem publish_none (g : Globals) (e : arm_uc_paal_event)
    (h : g.arm_ucex_linux_callback = none) : publish g e = [] := by
  simp [publish, h]

/-- C9.  `pal_ext_imageInitAPI(callback)` always returns `ERR_NONE` and
replaces the sink with its argument, touching nothing else.  After registering
`f` and then `h`, every callback call made by get-active-details,
installer-details, the activation worker or `pal_ext_imageActivate` is a call
of `h`, hence never one of `f` when `f` differs from `h`.  While no sink is
registered (the initial state, which is also what registering `NULL` gives),
the operations call no callback, return the same code and output record as
with any sink registered, and make the same other calls. -/
theorem imageInitAPI_replaces_sink (E : Externals) (g : Globals) (f h : Nat)
    (callback : Option Nat) (details : Option (List Nat)) (location : Nat) :
    (pal_ext_imageInitAPI g callback).1 = ERR_NONE ∧
    (registered g callback).arm_ucex_linux_callback = callback ∧
    (registered g callback).arm_ucex_activate_image_id = g.arm_ucex_activate_image_id ∧
    (∀ p ∈ allPublished E (registered (registered g (some f)) (some h)) details location,
      p.1 = h ∧ (f ≠ h → p.1 ≠ f)) ∧
    initialGlobals.arm_ucex_linux_callback = none ∧
    registered initialGlobals none = initialGlobals ∧
    allPublished E initialGlobals details location = [] ∧
    allPublished E (registered g none) details location = [] ∧
    (pal_ext_imageGetActiveDetails E (registered g none) details).1
      = (pal_ext_imageGetActiveDetails E (registered g callback) details).1 ∧
    (pal_ext_imageGetActiveDetails E (registered g none) details).2.1
      = (pal_ext_imageGetActiveDetails E (registered g callback) details).2.1 ∧
    (pal_ext_imageGetActiveDetails E (registered g none) details).2.2
      = withoutCallbacks (pal_ext_imageGetActiveDetails E (registered g callback) details).2.2 ∧
    (pal_ext_installerGetDetails E (registered g none) details).1
      = (pal_ext_installerGetDetails E (registered g callback) details).1 ∧
    (pal_ext_installerGetDetails E (registered g none) details).2.1
      = (pal_ext_installerGetDetails E (registered g callback) details).2.1 ∧
    (pal_ext_installerGetDetails E (registered g none) details).2.2
      = withoutCallbacks (pal_ext_installerGetDetails E (registered g callback) details).2.2 ∧
    pal_ext_imageActivationWorker E (registered g none) location
      = withoutCallbacks (pal_ext_imageActivationWorker E (registered g callback) location) ∧
    (pal_ext_imageActivate E (registered g none) location).1
      = (pal_ext_imageActivate E (registered g callback) location).1 ∧
    (pal_ext_imageActivate E (registered g none) location).2.2
      = (pal_ext_imageActivate E (registered g callback) location).2.2 := by
  have hnone : ∀ g0 : Globals, g0.arm_ucex_linux_callback = none →
      allPublished E g0 details location = [] := by
    intro g0 h0
    apply List.eq_nil_iff_forall_not_mem.mpr
    intro p hp
    have := mem_allPublished E g0 details location p hp
    rw [h0] at this
    exact Option.noConfusion this
  have hn : (registered g none).arm_ucex_linux_callback = none := rfl
  have hload : ∀ (r : arm_uc_error_code) (d : List Nat),
      withoutCallbacks (loadHeader E r d).2.2.2 = (loadHeader E r d).2.2.2 := by
    intro r d
    by_cases ho : E.pal_fsFopen = PAL_SUCCESS
    · by_cases hr : E.pal_fsFread.1 = PAL_SUCCESS
      · by_cases hi : isInternalV2 E E.pal_fsFread.2.1 E.pal_fsFread.2.2 = true
        · simp [loadHeader, chooseVersion, ho, hr, hi, withoutCallbacks]
        · by_cases he : isExternalV2 E E.pal_fsFread.2.1 E.pal_fsFread.2.2 = true
          · simp [loadHeader, chooseVersion, ho, hr, hi, he, withoutCallbacks]
          · simp [loadHeader, chooseVersion, ho, hr, hi, he, withoutCallbacks]
      · simp [loadHeader, ho, hr, withoutCallbacks]
    · simp [loadHeader, ho, withoutCallbacks]
  have hbuild : withoutCallbacks (buildCommand E location).2.2 = (buildCommand E location).2.2 := by
    by_cases hp : (E.arm_uc_pal_filesystem_get_path location).1 = ERR_NONE
    · by_cases hf : (E.snprintf (E.arm_uc_pal_filesystem_get_path location).2).1 > 0
      · simp [buildCommand, hp, hf, withoutCallbacks]
      · simp [buildCommand, hp, hf, withoutCallbacks]
    · simp [buildCommand, hp, withoutCallbacks]
  have hrun : ∀ rc cmd, withoutCallbacks (runCommand E rc cmd).2 = (runCommand E rc cmd).2 := by
    intro rc cmd
    by_cases hs : rc = PAL_SUCCESS
    · subst hs
      rw [runCommand_success]
      simp [withoutCallbacks]
    · rw [runCommand_failure E rc cmd hs]
      simp [withoutCallbacks]
  refine ⟨rfl, rfl, rfl, ?_, rfl, rfl, hnone _ rfl, hnone _ hn, ?_, ?_, ?_, ?_, ?_, ?_, ?_, ?_, ?_⟩
  · intro p hp
    have hs := mem_allPublished E _ details location p hp
    have hph : h = p.1 := by
      simpa [registered, pal_ext_imageInitAPI] using hs
    exact ⟨hph.symm, fun hne hpf => hne (hpf.symm.trans hph.symm)⟩
  · cases details <;> simp [pal_ext_imageGetActiveDetails]
  · cases details <;> simp [pal_ext_imageGetActiveDetails]
  · cases details with
    | none => simp [pal_ext_imageGetActiveDetails, withoutCallbacks]
    | some d =>
      simp only [pal_ext_imageGetActiveDetails, withoutCallbacks_append, hload,
        withoutCallbacks_publish, publish_none _ _ hn, List.append_nil]
      split <;> simp [withoutCallbacks]
  · cases details <;> simp [pal_ext_installerGetDetails]
  · cases details <;> simp [pal_ext_installerGetDetails]
  · cases details with
    | none => simp [pal_ext_installerGetDetails, withoutCallbacks]
    | some d =>
      simp only [pal_ext_installerGetDetails, withoutCallbacks_append,
        withoutCallbacks_publish, publish_none _ _ hn, List.append_nil]
      simp [withoutCallbacks]
  · simp only [pal_ext_imageActivationWorker, withoutCallbacks_append, hbuild, hrun,
      withoutCallbacks_publish, publish_none _ _ hn, List.append_nil]
    simp [withoutCallbacks]
  · rw [imageActivate_code, imageActivate_code]
  · rw [imageActivate_log, imageActivate_log]

end ArmUcPalLinuxExtensions
